import Mathlib

/-!
Verification of the execution-orchestration core of the AI workflow
orchestrator front end (`WorkflowDesigner.tsx`, `ExecutionPanel`).

The `ExecutionPanel` component keeps four pieces of run state:
`isWorkflowRunning` (React state), `workflowResults` (React state, the
accumulated per-step results), `currentStatus` (React state), and
`lastStepResultRef.current` (a mutable ref holding the most recent step
result, initialised to the empty string).  `handleRunWorkflow` resets this
state and opens a WebSocket; the socket's `onmessage`, `onopen`,
`onclose` and `onerror` handlers drive the state machine.

The embedding below translates those handlers directly.  JavaScript
truthiness of `lastStepResultRef.current` (a string) is emptiness testing;
`JSON.parse` without a surrounding try/catch is modelled by `Except`.
-/

/-- A per-step outcome, `type WorkflowResult = { step; prompt; result }`
in the source.  The `result` branch of `onmessage` pushes the whole parsed
frame, typed as this record. -/
structure WorkflowResult where
  step : Int
  prompt : String
  result : String
deriving DecidableEq, Repr

/-- The run state held by `ExecutionPanel`: the two `useState` cells
`isWorkflowRunning`, `workflowResults`, the status text `currentStatus`,
and the mutable ref `lastStepResultRef.current` (field `lastStepResult`). -/
structure PanelState where
  isWorkflowRunning : Bool
  workflowResults : List WorkflowResult
  currentStatus : String
  lastStepResult : String
deriving DecidableEq, Repr

/-- The single outbound command: `ws.send(JSON.stringify({type: 'stepInput',
content}))`. -/
inductive Command where
  | stepInput (content : String)
deriving DecidableEq, Repr

/-- A successfully parsed inbound JSON object.  The handler reads the
`type` discriminator and, depending on the branch, `message`, `step`,
`prompt` and `result`; absent fields of the dynamic object are modelled by
default values, which no branch of the handler ever reads when the wire
frame would not carry them. -/
structure Frame where
  type : String
  message : String := ""
  step : Int := 0
  prompt : String := ""
  result : String := ""
deriving DecidableEq, Repr

/-- A raw inbound text payload: either it parses to a JSON object or
`JSON.parse` fails on it. -/
inductive RawFrame where
  | valid (f : Frame)
  | malformed (payload : String)
deriving DecidableEq, Repr

/-- The `ws.onmessage` handler body after `JSON.parse` succeeded: the
`if/else` chain on `data.type`.  Returns the updated panel state and the
list of commands sent on the handler's captured socket.

Source (`ExecutionPanel`):
* `status`: `setCurrentStatus(data.message)`;
* `result`: `lastStepResultRef.current = data.result` then
  `setWorkflowResults(prev => [...prev, data])`;
* `nextStep`: `if (lastStepResultRef.current) ws.send({type:'stepInput',
  content: lastStepResultRef.current})` — a string is truthy iff nonempty;
* `error`: ``setCurrentStatus(`Error: ${data.message}`)``,
  `setIsWorkflowRunning(false)`;
* any other `type`: no branch taken, nothing happens. -/
def onmessage (s : PanelState) (data : Frame) : PanelState × List Command :=
  if data.type = "status" then
    ({ s with currentStatus := data.message }, [])
  else if data.type = "result" then
    ({ s with
        lastStepResult := data.result,
        workflowResults :=
          s.workflowResults ++ [⟨data.step, data.prompt, data.result⟩] }, [])
  else if data.type = "nextStep" then
    if s.lastStepResult = "" then (s, [])
    else (s, [Command.stepInput s.lastStepResult])
  else if data.type = "error" then
    ({ s with
        currentStatus := "Error: " ++ data.message,
        isWorkflowRunning := false }, [])
  else (s, [])

/-- `ws.onmessage` on the raw payload: `const data = JSON.parse(event.data)`
is not wrapped in try/catch, so a payload that fails to parse makes the
handler throw (`Except.error`); no state update and no command happens. -/
def onRawMessage (s : PanelState) (r : RawFrame) :
    Except Unit (PanelState × List Command) :=
  match r with
  | .valid f => .ok (onmessage s f)
  | .malformed _ => .error ()

/-- `ws.onopen`: `setCurrentStatus("Connection established. Starting
workflow...")`. -/
def onopen (s : PanelState) : PanelState :=
  { s with currentStatus := "Connection established. Starting workflow..." }

/-- `ws.onclose`: `setCurrentStatus("Workflow finished. Connection
closed.")`, `setIsWorkflowRunning(false)` — unconditionally, whatever the
state was. -/
def onclose (s : PanelState) : PanelState :=
  { s with
      currentStatus := "Workflow finished. Connection closed.",
      isWorkflowRunning := false }

/-- `ws.onerror`: `setCurrentStatus("Connection error. Please check if the
backend is accessible.")`, `setIsWorkflowRunning(false)`. -/
def onTransportError (s : PanelState) : PanelState :=
  { s with
      currentStatus := "Connection error. Please check if the backend is accessible.",
      isWorkflowRunning := false }

/-- The panel state `handleRunWorkflow` installs before the socket's first
event: `setIsWorkflowRunning(true)`, `setWorkflowResults([])`,
`setCurrentStatus("Connecting to workflow engine...")`,
`lastStepResultRef.current = ""`. -/
def runStartPanel : PanelState :=
  { isWorkflowRunning := true,
    workflowResults := [],
    currentStatus := "Connecting to workflow engine...",
    lastStepResult := "" }

/-- Fold of `onmessage` over a sequence of parsed inbound frames: the
state after the whole sequence is processed in arrival order. -/
def runEvents (s : PanelState) : List Frame → PanelState
  | [] => s
  | f :: fs => runEvents (onmessage s f).1 fs

/-- The commands emitted while processing a sequence of frames, in order. -/
def emitted (s : PanelState) : List Frame → List Command
  | [] => []
  | f :: fs => (onmessage s f).2 ++ emitted (onmessage s f).1 fs

/-- The result-typed frames of a sequence, in arrival order, as the
records the handler would append. -/
def resultsOf : List Frame → List WorkflowResult
  | [] => []
  | f :: fs =>
    (if f.type = "result" then [⟨f.step, f.prompt, f.result⟩] else [])
      ++ resultsOf fs

/-- System-level state: the panel state together with the channel
bookkeeping of `ExecutionPanel` — `wsRef.current` (the identity of the
socket most recently stored), the set of sockets that have been created
and not closed, and a counter supplying fresh socket identities. -/
structure SysState where
  panel : PanelState
  wsRef : Option Nat
  openChannels : List Nat
  nextId : Nat
deriving DecidableEq, Repr

/-- `handleRunWorkflow`: `if (!selectedWorkflowId) return alert(...)`
(JavaScript falsiness: `null` or `0`); otherwise reset the panel state,
construct a new WebSocket and store it in `wsRef.current`.  The previous
socket, if any, is neither closed nor unbound: it stays in
`openChannels` and its handlers remain attached. -/
def handleRunWorkflow (selectedWorkflowId : Option Int) (sys : SysState) :
    SysState :=
  if selectedWorkflowId = none ∨ selectedWorkflowId = some 0 then sys
  else
    { panel := runStartPanel,
      wsRef := some sys.nextId,
      openChannels := sys.openChannels ++ [sys.nextId],
      nextId := sys.nextId + 1 }

/-- Delivery of a parsed frame on channel `c`: if `c` is still open its
`onmessage` handler runs (the handler closes over the shared panel state
and over its own socket `c`, on which any command is sent); a closed
channel delivers nothing. -/
def deliver (sys : SysState) (c : Nat) (f : Frame) :
    SysState × List (Nat × Command) :=
  if c ∈ sys.openChannels then
    ({ sys with panel := (onmessage sys.panel f).1 },
      (onmessage sys.panel f).2.map (fun cmd => (c, cmd)))
  else (sys, [])

/-- The fresh system state before any run: no socket, empty panel. -/
def sysInit : SysState :=
  { panel :=
      { isWorkflowRunning := false,
        workflowResults := [],
        currentStatus := "",
        lastStepResult := "" },
    wsRef := none,
    openChannels := [],
    nextId := 0 }

/-- A `nextStep` frame as it arrives on the wire (`{"type": "nextStep"}`,
no other fields). -/
def nextStepFrame : Frame := { type := "nextStep" }

/-- A `result` frame carrying the given step, prompt and result. -/
def resultFrame (step : Int) (prompt result : String) : Frame :=
  { type := "result", step := step, prompt := prompt, result := result }

/-- An `error` frame carrying the given message. -/
def errorFrame (message : String) : Frame :=
  { type := "error", message := message }

/-- A `status` frame carrying the given message. -/
def statusFrame (message : String) : Frame :=
  { type := "status", message := message }

/-! ## Helper lemmas about single-frame processing -/

/-- Processing one frame appends exactly the result-typed frames to the
log: nothing is removed, reordered or rewritten. -/
theorem onmessage_workflowResults (s : PanelState) (f : Frame) :
    (onmessage s f).1.workflowResults =
      s.workflowResults ++
        (if f.type = "result" then [⟨f.step, f.prompt, f.result⟩] else []) := by
  unfold onmessage
  split_ifs <;> simp_all

/-- How one frame affects the `lastStepResultRef` cell: only a `result`
frame writes it. -/
theorem onmessage_lastStepResult (s : PanelState) (f : Frame) :
    (onmessage s f).1.lastStepResult =
      if f.type = "result" then f.result else s.lastStepResult := by
  unfold onmessage
  split_ifs <;> simp_all

/-- `runEvents` over a concatenation is sequential composition. -/
theorem runEvents_append (s : PanelState) (fs gs : List Frame) :
    runEvents s (fs ++ gs) = runEvents (runEvents s fs) gs := by
  induction fs generalizing s with
  | nil => rfl
  | cons f fs ih => simp [runEvents, ih]

/-- The accumulated results after any frame sequence are the prior
results followed by that sequence's result frames in arrival order. -/
theorem runEvents_workflowResults (s : PanelState) (fs : List Frame) :
    (runEvents s fs).workflowResults = s.workflowResults ++ resultsOf fs := by
  induction fs generalizing s with
  | nil => simp [runEvents, resultsOf]
  | cons f fs ih =>
    simp only [runEvents, resultsOf, ih, onmessage_workflowResults,
      List.append_assoc]

/-- If no frame of the sequence is result-typed, the `lastStepResultRef`
cell is untouched. -/
theorem runEvents_lastStepResult_of_no_result (s : PanelState)
    (fs : List Frame) (h : ∀ f ∈ fs, f.type ≠ "result") :
    (runEvents s fs).lastStepResult = s.lastStepResult := by
  induction fs generalizing s with
  | nil => rfl
  | cons f fs ih =>
    have hf : f.type ≠ "result" := h f (List.mem_cons_self f fs)
    have hfs : ∀ g ∈ fs, g.type ≠ "result" := fun g hg => h g (List.mem_cons_of_mem f hg)
    simp [runEvents, ih _ hfs, onmessage_lastStepResult, hf]

/-- A `nextStep` frame arriving while the `lastStepResultRef` cell is
empty takes the falsy branch of the truthiness guard: no command, no
state change. -/
theorem nextStep_no_output (s : PanelState) (h : s.lastStepResult = "") :
    onmessage s nextStepFrame = (s, []) := by
  unfold onmessage nextStepFrame
  simp [h]

/-- A `nextStep` frame arriving while the `lastStepResultRef` cell is
nonempty sends exactly one `stepInput` carrying that cell verbatim. -/
theorem nextStep_sends_last (s : PanelState) (h : s.lastStepResult ≠ "") :
    onmessage s nextStepFrame = (s, [Command.stepInput s.lastStepResult]) := by
  unfold onmessage nextStepFrame
  simp [h]

/-! ## Claim theorems -/

/-- C6: for every sequence of inbound frames, the results log equals the
arrival order of the `result` frames exactly — each appended at the end of
the prior log, never reordered or rewritten — and the log observed after
any prefix of the sequence is a prefix of the final log. -/
theorem results_follow_arrival_order (s : PanelState) (fs gs : List Frame) :
    (runEvents s fs).workflowResults = s.workflowResults ++ resultsOf fs
    ∧ ∃ t, (runEvents s (fs ++ gs)).workflowResults =
        (runEvents s fs).workflowResults ++ t := by
  refine ⟨runEvents_workflowResults s fs, ⟨resultsOf gs, ?_⟩⟩
  rw [runEvents_append, runEvents_workflowResults]

/-- C9: a parsed inbound frame whose `type` is none of `status`, `result`,
`nextStep`, `error` falls off the end of the `if/else` chain: the panel
state is unchanged and no command is sent. -/
theorem unknown_type_ignored (s : PanelState) (f : Frame)
    (h1 : f.type ≠ "status") (h2 : f.type ≠ "result")
    (h3 : f.type ≠ "nextStep") (h4 : f.type ≠ "error") :
    onmessage s f = (s, []) := by
  unfold onmessage
  split_ifs <;> simp_all

/-- Witness for C9: a frame of type `ping` leaves the fresh run state
untouched and sends nothing. -/
theorem unknown_type_ignored_witness :
    onmessage runStartPanel { type := "ping" } = (runStartPanel, []) :=
  unknown_type_ignored runStartPanel { type := "ping" }
    (by decide) (by decide) (by decide) (by decide)

/-- C10: if the most recent `result` frame carried the empty string, the
truthiness guard `if (lastStepResultRef.current)` is falsy, so a
following `nextStep` frame produces no outbound command at all (and no
state change) — the empty string behaves like an absent `lastStepOutput`
rather than being forwarded as `stepInput` with empty content. -/
theorem empty_result_disables_chaining (s : PanelState) (st : Int)
    (pr : String) :
    onmessage (onmessage s (resultFrame st pr "")).1 nextStepFrame =
      ((onmessage s (resultFrame st pr "")).1, []) := by
  apply nextStep_no_output
  rw [onmessage_lastStepResult]
  rfl

/-- C7: if a `nextStep` frame arrives in a run before any `result` frame
has been received, the `lastStepResultRef` cell still holds its reset
value `""`, so zero outbound commands are produced and the session state
is unchanged (the run continues without error). -/
theorem nextStep_before_result_no_command (fs : List Frame)
    (h : ∀ f ∈ fs, f.type ≠ "result") :
    onmessage (runEvents runStartPanel fs) nextStepFrame =
      (runEvents runStartPanel fs, []) := by
  apply nextStep_no_output
  rw [runEvents_lastStepResult_of_no_result runStartPanel fs h]
  rfl

/-- Witness for C7: after only a `status` frame, a `nextStep` frame sends
nothing and changes nothing. -/
theorem nextStep_before_result_no_command_witness :
    onmessage (runEvents runStartPanel [statusFrame "working"]) nextStepFrame =
      (runEvents runStartPanel [statusFrame "working"], []) :=
  nextStep_before_result_no_command [statusFrame "working"] (by decide)

/-- Counterexample for C1: in a Running session, after a `result` frame
whose result value is the empty string, the next `nextStep` frame produces
zero outbound commands, not the claimed single `stepInput` carrying the
value verbatim. -/
theorem chaining_empty_result_counterexample :
    runStartPanel.isWorkflowRunning = true
    ∧ (onmessage (onmessage runStartPanel (resultFrame 1 "p" "")).1
        nextStepFrame).2 = []
    ∧ (onmessage (onmessage runStartPanel (resultFrame 1 "p" "")).1
        nextStepFrame).2 ≠ [Command.stepInput ""] := by
  refine ⟨rfl, rfl, by decide⟩

/-- C1 (amended): in a Running session, after a `result` frame carrying a
nonempty result value `R`, the next `nextStep` frame causes exactly one
outbound command, `stepInput` with content `R` verbatim, and no state
change. -/
theorem chaining_forwards_nonempty_result (s : PanelState) (st : Int)
    (pr R : String) (_hrun : s.isWorkflowRunning = true) (hR : R ≠ "") :
    onmessage (onmessage s (resultFrame st pr R)).1 nextStepFrame =
      ((onmessage s (resultFrame st pr R)).1, [Command.stepInput R]) := by
  have h : (onmessage s (resultFrame st pr R)).1.lastStepResult = R := by
    rw [onmessage_lastStepResult]
    rfl
  have h2 := nextStep_sends_last (onmessage s (resultFrame st pr R)).1
    (by rw [h]; exact hR)
  rw [h2, h]

/-- Witness for C1 (amended): the spec's own instance — `result` with
value `"R1"` then `nextStep` yields exactly `stepInput "R1"`. -/
theorem chaining_forwards_nonempty_result_witness :
    onmessage (onmessage runStartPanel (resultFrame 1 "Write a title" "R1")).1
        nextStepFrame =
      ((onmessage runStartPanel (resultFrame 1 "Write a title" "R1")).1,
        [Command.stepInput "R1"]) :=
  chaining_forwards_nonempty_result runStartPanel 1 "Write a title" "R1"
    rfl (by decide)

/-- C8: starting a run with a workflow selected (a second run included,
since the statement holds for every prior system state) resets the
results log to empty and the `lastStepResultRef` cell to the empty
string before any inbound event of the new run is processed. -/
theorem run_start_resets_session (sys : SysState) (id : Int) (h : id ≠ 0) :
    (handleRunWorkflow (some id) sys).panel.workflowResults = []
    ∧ (handleRunWorkflow (some id) sys).panel.lastStepResult = "" := by
  unfold handleRunWorkflow
  simp [h, runStartPanel]

/-- Witness for C8: a second run for workflow 7, right after a first one,
starts from an empty log and an empty last-step cell. -/
theorem run_start_resets_session_witness :
    (handleRunWorkflow (some 7)
        (handleRunWorkflow (some 7) sysInit)).panel.workflowResults = []
    ∧ (handleRunWorkflow (some 7)
        (handleRunWorkflow (some 7) sysInit)).panel.lastStepResult = "" :=
  run_start_resets_session (handleRunWorkflow (some 7) sysInit) 7 (by decide)

/-- Counterexample for C2: from a Running state with last result `"R1"`,
an `error{"rate limited"}` frame does set status `"Error: rate limited"`
and clear the running flag — but the session is not inert afterwards: a
`nextStep` frame delivered on the still-open channel sends a further
`stepInput "R1"` command, and a subsequent close overwrites the status
message with the finished text. -/
theorem errored_state_not_preserved_counterexample :
    (onmessage (onmessage runStartPanel (resultFrame 1 "p" "R1")).1
        (errorFrame "rate limited")).1.currentStatus = "Error: rate limited"
    ∧ (onmessage (onmessage runStartPanel (resultFrame 1 "p" "R1")).1
        (errorFrame "rate limited")).1.isWorkflowRunning = false
    ∧ (onmessage (onmessage (onmessage runStartPanel (resultFrame 1 "p" "R1")).1
        (errorFrame "rate limited")).1 nextStepFrame).2 =
        [Command.stepInput "R1"]
    ∧ (onclose (onmessage (onmessage runStartPanel (resultFrame 1 "p" "R1")).1
        (errorFrame "rate limited")).1).currentStatus ≠ "Error: rate limited" := by
  refine ⟨rfl, rfl, rfl, by decide⟩

/-- C2 (amended): an `error{message}` frame received in any state sets
`statusMessage` to `"Error: " + message`, clears the running flag, and
itself emits no command; however the handlers do not become inert: a later
`nextStep` frame with a nonempty `lastStepOutput` still emits a
`stepInput` command, and a later close overwrites the status message with
the finished text (keeping the running flag cleared). -/
theorem error_transition_amended (s : PanelState) (f : Frame)
    (hf : f.type = "error") (hne : s.lastStepResult ≠ "") :
    onmessage s f =
      ({ s with currentStatus := "Error: " ++ f.message,
                isWorkflowRunning := false }, [])
    ∧ (onmessage (onmessage s f).1 nextStepFrame).2 =
        [Command.stepInput s.lastStepResult]
    ∧ onclose (onmessage s f).1 =
        { s with currentStatus := "Workflow finished. Connection closed.",
                 isWorkflowRunning := false } := by
  have h1 : onmessage s f =
      ({ s with currentStatus := "Error: " ++ f.message,
                isWorkflowRunning := false }, []) := by
    unfold onmessage
    rw [hf]
    simp
  refine ⟨h1, ?_, ?_⟩
  · rw [h1]
    exact congrArg Prod.snd
      (nextStep_sends_last
        { s with currentStatus := "Error: " ++ f.message,
                 isWorkflowRunning := false } hne)
  · rw [h1]
    rfl

/-- Witness for C2 (amended): the spec's error scenario, instantiated
after one `result` frame carrying `"R1"`. -/
theorem error_transition_amended_witness :
    onmessage (onmessage runStartPanel (resultFrame 1 "p" "R1")).1
        (errorFrame "rate limited") =
      ({ (onmessage runStartPanel (resultFrame 1 "p" "R1")).1 with
          currentStatus := "Error: " ++ (errorFrame "rate limited").message,
          isWorkflowRunning := false }, [])
    ∧ (onmessage (onmessage (onmessage runStartPanel (resultFrame 1 "p" "R1")).1
        (errorFrame "rate limited")).1 nextStepFrame).2 =
        [Command.stepInput
          (onmessage runStartPanel (resultFrame 1 "p" "R1")).1.lastStepResult]
    ∧ onclose (onmessage (onmessage runStartPanel (resultFrame 1 "p" "R1")).1
        (errorFrame "rate limited")).1 =
        { (onmessage runStartPanel (resultFrame 1 "p" "R1")).1 with
            currentStatus := "Workflow finished. Connection closed.",
            isWorkflowRunning := false } :=
  error_transition_amended (onmessage runStartPanel (resultFrame 1 "p" "R1")).1
    (errorFrame "rate limited") rfl (by decide)

/-- Counterexample for C3: a payload that fails to parse as JSON makes the
message handler throw (`JSON.parse` is unguarded); it is not converted
into an `Error` event and no Errored state results. -/
theorem malformed_frame_throws_counterexample :
    onRawMessage runStartPanel (RawFrame.malformed "oops") = Except.error () := rfl

/-- C3 (amended): for every inbound frame whose text payload fails to
parse as JSON, the message handler throws past the handler boundary: no
state update happens, no `Error` event is synthesized, and the session
does not transition to Errored. -/
theorem malformed_frame_always_throws (s : PanelState) (payload : String) :
    onRawMessage s (RawFrame.malformed payload) = Except.error () := rfl

/-- Counterexample for C4: from a fresh Running state, an `error` frame
puts the session in the terminal Errored state (running flag cleared,
status `"Error: boom"`), yet a `result` frame subsequently delivered on
the stale channel is still appended to the results log. -/
theorem stale_result_appended_counterexample :
    (onmessage runStartPanel (errorFrame "boom")).1.isWorkflowRunning = false
    ∧ (onmessage runStartPanel (errorFrame "boom")).1.currentStatus =
        "Error: boom"
    ∧ (onmessage (onmessage runStartPanel (errorFrame "boom")).1
        (resultFrame 2 "p2" "R2")).1.workflowResults = [⟨2, "p2", "R2"⟩] := by
  refine ⟨rfl, rfl, rfl⟩

/-- C4 (amended): the message handler has no terminal-state guard: even
when the running flag is cleared (Errored or Completed), a `result` frame
delivered on the stale channel is still appended to the results log. -/
theorem result_appended_even_when_terminal (s : PanelState) (f : Frame)
    (_hterm : s.isWorkflowRunning = false) (hf : f.type = "result") :
    (onmessage s f).1.workflowResults =
      s.workflowResults ++ [⟨f.step, f.prompt, f.result⟩] := by
  rw [onmessage_workflowResults, hf]
  simp

/-- Witness for C4 (amended): in a concrete errored state, a stale
`result` frame extends the log. -/
theorem result_appended_even_when_terminal_witness :
    (onmessage (onmessage runStartPanel (errorFrame "boom")).1
        (resultFrame 2 "p2" "R2")).1.workflowResults =
      (onmessage runStartPanel (errorFrame "boom")).1.workflowResults ++
        [⟨(resultFrame 2 "p2" "R2").step, (resultFrame 2 "p2" "R2").prompt,
          (resultFrame 2 "p2" "R2").result⟩] :=
  result_appended_even_when_terminal
    (onmessage runStartPanel (errorFrame "boom")).1
    (resultFrame 2 "p2" "R2") rfl rfl

/-- Counterexample for C5: starting a second run replaces `wsRef` with the
new channel 1 but neither closes nor unbinds channel 0 of the first run;
a `result` frame delivered on superseded channel 0 after channel 1 exists
is still processed and mutates the new run's results log. -/
theorem superseded_channel_event_processed_counterexample :
    (handleRunWorkflow (some 7) (handleRunWorkflow (some 7) sysInit)).wsRef =
        some 1
    ∧ 0 ∈ (handleRunWorkflow (some 7)
        (handleRunWorkflow (some 7) sysInit)).openChannels
    ∧ (deliver (handleRunWorkflow (some 7) (handleRunWorkflow (some 7) sysInit))
        0 (resultFrame 1 "p" "R1")).1.panel.workflowResults =
        [⟨1, "p", "R1"⟩] := by
  refine ⟨rfl, by decide, rfl⟩

/-- C5 (amended): starting a new run overwrites the stored channel
reference without closing or unbinding the prior channel: every channel
open before `handleRunWorkflow` is still open after it, and a frame
delivered on such a superseded channel is still processed by its
`onmessage` handler against the session state. -/
theorem superseded_channel_still_live (sys : SysState) (sel : Option Int)
    (c : Nat) (f : Frame) (hc : c ∈ sys.openChannels) :
    c ∈ (handleRunWorkflow sel sys).openChannels
    ∧ (deliver (handleRunWorkflow sel sys) c f).1.panel =
        (onmessage (handleRunWorkflow sel sys).panel f).1 := by
  have hmem : c ∈ (handleRunWorkflow sel sys).openChannels := by
    unfold handleRunWorkflow
    split_ifs with h
    · exact hc
    · exact List.mem_append_left _ hc
  refine ⟨hmem, ?_⟩
  unfold deliver
  rw [if_pos hmem]

/-- Witness for C5 (amended): channel 0 of a first run survives the start
of a second run and still processes a `result` frame. -/
theorem superseded_channel_still_live_witness :
    0 ∈ (handleRunWorkflow (some 7)
        (handleRunWorkflow (some 7) sysInit)).openChannels
    ∧ (deliver (handleRunWorkflow (some 7) (handleRunWorkflow (some 7) sysInit))
        0 (resultFrame 1 "p" "R1")).1.panel =
        (onmessage (handleRunWorkflow (some 7)
          (handleRunWorkflow (some 7) sysInit)).panel (resultFrame 1 "p" "R1")).1 :=
  superseded_channel_still_live (handleRunWorkflow (some 7) sysInit) (some 7)
    0 (resultFrame 1 "p" "R1") (by decide)
